import Mathlib

/-!
Verification of the lexer / expression-parser / cast-evaluation core of the
`logix-as-a-text` repository, via a shallow embedding of the Rust sources.

Conventions used throughout this development:

* Machine integers (`i8` … `u64`) are embedded as unbounded `Int`; the cast
  logic under scrutiny never inspects ranges, so no wrap-around modelling is
  required.  Rust `f32`/`f64` payloads are embedded as `ℚ`; every float the
  cast evaluator can produce is an exact small integer, so this is
  value-faithful for all reachable conversions.
* Fallible Rust code (`anyhow::Result`, `bail!`) becomes `Except String` /
  a dedicated result type; `panic!`-class failures (`assert_eq!`, `expect`,
  `unwrap`, `unreachable!`) are kept distinct from recoverable `Err` values
  because `while let Ok` loops in the source distinguish them.
* Loops without a structural termination argument are given an explicit
  fuel parameter; `diverge` (or `none`) marks fuel exhaustion, so proving a
  result is `diverge` for *every* fuel amount proves genuine
  non-termination of the source loop.
-/

/-- Four-valued result of running a piece of the Rust front end: `diverge`
models non-termination (fuel exhaustion at every fuel), `panic` models
process-aborting failures (`assert_eq!`, `expect`, `unwrap`), `err` models
recoverable `Err`/`bail!` results, `ok` is success. -/
inductive PRes (α : Type) : Type where
  | diverge : PRes α
  | panic : String → PRes α
  | err : String → PRes α
  | ok : α → PRes α
deriving DecidableEq, Repr

namespace PRes

def bind {α β : Type} : PRes α → (α → PRes β) → PRes β
  | .diverge, _ => .diverge
  | .panic m, _ => .panic m
  | .err m, _ => .err m
  | .ok a, f => f a

def isOk {α : Type} : PRes α → Bool
  | .ok _ => true
  | _ => false

instance : Monad PRes where
  pure := .ok
  bind := PRes.bind

end PRes

/-- Embeds `SupportedTypeTag` from `src/src/test_interpreter.rs` (lines 340-355). -/
inductive SupportedTypeTag : Type where
  | bool | i8 | u8 | i16 | u16 | i32 | u32 | i64 | u64 | f32 | f64
  | string | impulse
deriving DecidableEq, Repr

/-- Embeds `type Tag = SupportedTypeTag` from `src/src/test_interpreter.rs`. -/
abbrev Tag := SupportedTypeTag

/-- Embeds `SupportedTypeBox` from `src/src/test_interpreter.rs` (lines 291-305).
Integer payloads are embedded as `Int`, float payloads as `ℚ`. -/
inductive SupportedTypeBox : Type where
  | bool (v : Bool)
  | i8 (v : Int)
  | u8 (v : Int)
  | i16 (v : Int)
  | u16 (v : Int)
  | i32 (v : Int)
  | u32 (v : Int)
  | i64 (v : Int)
  | u64 (v : Int)
  | f32 (v : ℚ)
  | f64 (v : ℚ)
  | string (v : String)
deriving DecidableEq, Repr

/-- Embeds `SupportedTypeBox::tag` from `src/src/test_interpreter.rs` (lines 308-323). -/
def SupportedTypeBox.tag : SupportedTypeBox → SupportedTypeTag
  | .bool _ => .bool
  | .i8 _ => .i8
  | .u8 _ => .u8
  | .i16 _ => .i16
  | .u16 _ => .u16
  | .i32 _ => .i32
  | .u32 _ => .u32
  | .i64 _ => .i64
  | .u64 _ => .u64
  | .f32 _ => .f32
  | .f64 _ => .f64
  | .string _ => .string

/-- Debug rendering of a tag, standing in for Rust `{:?}` in error texts. -/
def tagDebug : SupportedTypeTag → String
  | .bool => "Bool"
  | .i8 => "I8"
  | .u8 => "U8"
  | .i16 => "I16"
  | .u16 => "U16"
  | .i32 => "I32"
  | .u32 => "U32"
  | .i64 => "I64"
  | .u64 => "U64"
  | .f32 => "F32"
  | .f64 => "F64"
  | .string => "String"
  | .impulse => "Impulse"

/-- The string-keyed dispatch inside `TestInterpreter::resolve_dynamic`
(`src/src/test_interpreter.rs` lines 66-81): a Rust `match` on the joined
path, i.e. an ordered chain of string-equality tests. -/
def resolveName (s : String) : Option SupportedTypeTag :=
  if s = "bool" then some .bool
  else if s = "i8" then some .i8
  else if s = "u8" then some .u8
  else if s = "i16" then some .i16
  else if s = "u16" then some .u16
  else if s = "i32" then some .i32
  else if s = "u32" then some .u32
  else if s = "i64" then some .i64
  else if s = "u64" then some .u64
  else if s = "f32" then some .f32
  else if s = "f64" then some .f64
  else if s = "string" then some .string
  else if s = "impulse" then some .impulse
  else none

/-- Embeds `TestInterpreter::resolve_dynamic` (`src/src/test_interpreter.rs` lines
65-83): joins the member path's identifier strings with `"."` and resolves
the joined name.  The `MemberPath`'s `Vec<Identifier>` is embedded as
`List String` (an `Identifier` wraps exactly one owned string). -/
def resolve_dynamic (pack : List String) : Option SupportedTypeTag :=
  resolveName (String.intercalate "." pack)

/-- The body of `impl CanBeEvaluated for Cast` in
`src/src/test_interpreter.rs` (lines 132-236), for an already-evaluated
source value `lhs` and an already-resolved target tag `type_tag`: identity
check first, then the hand-enumerated widening table keyed on the source
value's tag (the Rust code matches on `into = lhs.tag()` and then extracts
the payload, with `unreachable!()` for impossible payloads; here the match
on the box constructor performs both steps at once). -/
def evaluateCast (lhs : SupportedTypeBox) (type_tag : SupportedTypeTag) :
    Except String SupportedTypeBox :=
  if lhs.tag = type_tag then .ok lhs
  else
    let into := lhs.tag
    let noCast : Except String SupportedTypeBox :=
      .error (tagDebug type_tag ++ " cannot be casted to " ++ tagDebug into)
    match lhs with
    | .bool _ => noCast
    | .i8 v =>
      match type_tag with
      | .i16 => .ok (.i16 v)
      | .i32 => .ok (.i32 v)
      | .i64 => .ok (.i64 v)
      | .f32 => .ok (.f32 (v : ℚ))
      | .f64 => .ok (.f64 (v : ℚ))
      | _ => noCast
    | .u8 v =>
      match type_tag with
      | .i16 => .ok (.i16 v)
      | .i32 => .ok (.i32 v)
      | .i64 => .ok (.i64 v)
      | .u16 => .ok (.u16 v)
      | .u32 => .ok (.u32 v)
      | .u64 => .ok (.u64 v)
      | .f32 => .ok (.f32 (v : ℚ))
      | .f64 => .ok (.f64 (v : ℚ))
      | _ => noCast
    | .i16 v =>
      match type_tag with
      | .i32 => .ok (.i32 v)
      | .i64 => .ok (.i64 v)
      | .f32 => .ok (.f32 (v : ℚ))
      | .f64 => .ok (.f64 (v : ℚ))
      | _ => noCast
    | .u16 v =>
      match type_tag with
      | .i32 => .ok (.i32 v)
      | .i64 => .ok (.i64 v)
      | .u32 => .ok (.u32 v)
      | .u64 => .ok (.u64 v)
      | .f32 => .ok (.f32 (v : ℚ))
      | .f64 => .ok (.f64 (v : ℚ))
      | _ => noCast
    | .i32 v =>
      match type_tag with
      | .i64 => .ok (.i64 v)
      | .f64 => .ok (.f64 (v : ℚ))
      | _ => noCast
    | .u32 v =>
      match type_tag with
      | .i64 => .ok (.i64 v)
      | .u64 => .ok (.u64 v)
      | .f64 => .ok (.f64 (v : ℚ))
      | _ => noCast
    | _ => noCast

/-- The `Cast::Do` evaluation path including target-tag resolution
(`src/src/test_interpreter.rs` lines 131-239): resolve the unresolved type
name; `None` is a fatal error (`bail!("{tp:?} is not supported type")`),
otherwise run the cast table. -/
def evaluateCastDo (lhs : SupportedTypeBox) (pack : List String) :
    Except String SupportedTypeBox :=
  match resolve_dynamic pack with
  | some type_tag => evaluateCast lhs type_tag
  | none => .error (String.intercalate "." pack ++ " is not supported type")

/-- Modelled from the spec: the widening lattice exactly as claim C3 words
it — i8→{i16,i32,i64,f32,f64}, u8→{i16,i32,i64,u16,u32,u64,f32,f64},
i16→{i32,i64,f32,f64}, u16→{i32,i64,u32,u64,f32,f64}, i32→{i64,f64},
u32→{i64,u64,f64}.  Used only as the comparison point for the code's
hand-written cast table. -/
def specWideningLattice : SupportedTypeTag → SupportedTypeTag → Bool
  | .i8, .i16 | .i8, .i32 | .i8, .i64 | .i8, .f32 | .i8, .f64 => true
  | .u8, .i16 | .u8, .i32 | .u8, .i64 | .u8, .u16 | .u8, .u32
  | .u8, .u64 | .u8, .f32 | .u8, .f64 => true
  | .i16, .i32 | .i16, .i64 | .i16, .f32 | .i16, .f64 => true
  | .u16, .i32 | .u16, .i64 | .u16, .u32 | .u16, .u64 | .u16, .f32
  | .u16, .f64 => true
  | .i32, .i64 | .i32, .f64 => true
  | .u32, .i64 | .u32, .u64 | .u32, .f64 => true
  | _, _ => false

/-- The numeric content of a boxed value, if any: integers and floats map
to their exact rational value (all casts the table performs are exact on
the reachable ranges), `bool` and `string` carry no numeric value. -/
def numericValue : SupportedTypeBox → Option ℚ
  | .bool _ => none
  | .i8 v | .u8 v | .i16 v | .u16 v | .i32 v | .u32 v | .i64 v | .u64 v =>
    some (v : ℚ)
  | .f32 q | .f64 q => some q
  | .string _ => none

/-- The thirteen primitive type names recognized by `resolve_dynamic`. -/
def typeNameWhitelist : List String :=
  ["bool", "i8", "u8", "i16", "u16", "i32", "u32", "i64", "u64", "f32",
   "f64", "string", "impulse"]

/-- An ordered chain of string-equality tests, the shape a Rust `match` on
a string compiles to; `resolveName` is definitionally such a chain. -/
def lookupChain : List (String × SupportedTypeTag) → String →
    Option SupportedTypeTag
  | [], _ => none
  | (k, v) :: rest, s => if s = k then some v else lookupChain rest s

/-- The dispatch table of `resolve_dynamic`, as key/value pairs. -/
def resolveTable : List (String × SupportedTypeTag) :=
  [("bool", .bool), ("i8", .i8), ("u8", .u8), ("i16", .i16), ("u16", .u16),
   ("i32", .i32), ("u32", .u32), ("i64", .i64), ("u64", .u64),
   ("f32", .f32), ("f64", .f64), ("string", .string),
   ("impulse", .impulse)]

/-!
## Lexer embedding

Shallow embedding of `src/src/compiler/lexer.rs`.  The `Lexer` struct's
interior-mutable cursor becomes an explicit `LexState`; every loop carries
a fuel argument (the single fuel passed to `lexNext` is handed unchanged to
each scanning loop, which decrements it per iteration), so all definitions
are structural and compute by `rfl`/`decide` on concrete input, and a
result of `.diverge` at *every* fuel proves the source loop never ends.
-/

/-- Embeds `Token` from `src/src/compiler/lexer.rs` (lines 377-462).  The Rust
enum declares the cast keyword as `KeywprdAs` while the construction site
(line 152) writes `Token::KeywordAs`; the embedding uses one constructor
`keywordAs` for that token. -/
inductive Token : Type where
  | identifier (inner : String)
  | digits (sequence : String)
  | unexpectedChar (index : Nat) (char : Char)
  | comment (content : String)
  | stringLiteral (content : String)
  | endOfFile
  | newLine
  | varKeyword
  | keywordTrue
  | keywordFalse
  | keywordAs
  | symEq
  | symPlus
  | symMinus
  | symAsterisk
  | symSlash
  | symLeftPar
  | symRightPar
  | symMore
  | partMoreMore
  | symLess
  | partLessLess
  | symAnd
  | partAndAnd
  | symCaret
  | symPipe
  | partPipePipe
  | symBang
  | partEqEq
  | partBangEq
  | partLessEq
  | partMoreEq
  | partLessEqMore
  | symSharp
  | symOpenBracket
  | symCloseBracket
  | symColon
  | symDot
  | reserved (matched : String)
deriving DecidableEq, Repr

/-- Embeds `KEYWORDS` from `src/src/compiler/lexer.rs` line 5: eleven entries —
note `var`, `true` and `false` are **not** in this list. -/
def KEYWORDS : List String :=
  ["if", "then", "else", "elseif", "end", "endif", "while", "wend", "for",
   "match", "as"]

/-- The `Lexer` struct's state: the source (`current_source`, as the char
sequence that `chars().nth(..)` indexes) and the `index` cell.  The Rust
code compares `index` against `current_source.len()` (a byte count) while
indexing by char; for ASCII sources the two coincide, and the embedding
uses the char count. -/
structure LexState : Type where
  source : List Char
  index : Nat
deriving DecidableEq, Repr

/-- Embeds `Lexer::reached_end`. -/
def LexState.reachedEnd (st : LexState) : Bool :=
  st.source.length ≤ st.index

/-- Embeds `Lexer::current_char`: `none` models the `Err` of an out-of-range
index. -/
def LexState.currentChar (st : LexState) : Option Char :=
  st.source.get? st.index

/-- Embeds `Lexer::advance` / `advance_by(1)`. -/
def LexState.advance (st : LexState) : LexState :=
  ⟨st.source, st.index + 1⟩

/-- Embeds `Lexer::drain_space` (lines 20-24): skip plain spaces.  The
`current_char().expect("oops")` in the guard cannot fail because
`reached_end` was checked first. -/
def drainSpace (fuel : Nat) (st : LexState) : PRes LexState :=
  match fuel with
  | 0 => .diverge
  | fuel + 1 =>
    if st.reachedEnd then .ok st
    else match st.currentChar with
      | none => .panic "oops"
      | some c => if c = ' ' then drainSpace fuel st.advance else .ok st

/-- The loop of `Lexer::scan_digits` (lines 168-188).  NOTE the inverted
condition faithfully kept from the source: the loop **breaks** as soon as
the current char *is* an ASCII digit, so it accumulates the maximal run of
non-digits. -/
def scanDigitsLoop (fuel : Nat) (st : LexState) (buf : String) :
    PRes (String × LexState) :=
  match fuel with
  | 0 => .diverge
  | fuel + 1 =>
    if st.reachedEnd then .ok (buf, st)
    else match st.currentChar with
      | none => .err "index: out of range"
      | some c =>
        if c.isDigit then .ok (buf, st)
        else scanDigitsLoop fuel st.advance (buf.push c)

/-- The loop of `Lexer::scan_lowers` (lines 190-208).  NOTE the inverted
condition faithfully kept from the source: the loop **breaks** as soon as
the current char *is* an ASCII lowercase letter. -/
def scanLowersLoop (fuel : Nat) (st : LexState) (buf : String) :
    PRes (String × LexState) :=
  match fuel with
  | 0 => .diverge
  | fuel + 1 =>
    if st.reachedEnd then .ok (buf, st)
    else match st.currentChar with
      | none => .err "index: out of range"
      | some c =>
        if c.isLower then .ok (buf, st)
        else scanLowersLoop fuel st.advance (buf.push c)

/-- Embeds `Lexer::scan_comment_content` (lines 210-216). -/
def scanCommentLoop (fuel : Nat) (st : LexState) (buf : String) :
    PRes (String × LexState) :=
  match fuel with
  | 0 => .diverge
  | fuel + 1 =>
    if st.reachedEnd then .ok (buf, st)
    else match st.currentChar with
      | none => .panic "oops"
      | some c =>
        if c = '\n' then .ok (buf, st)
        else scanCommentLoop fuel st.advance (buf.push c)

/-- The hexadecimal-digit table of the `\u` escape arm
(`src/src/compiler/lexer.rs` lines 284-304). -/
def hexDigitValue (c : Char) : Option Nat :=
  if c = '0' then some 0 else if c = '1' then some 1
  else if c = '2' then some 2 else if c = '3' then some 3
  else if c = '4' then some 4 else if c = '5' then some 5
  else if c = '6' then some 6 else if c = '7' then some 7
  else if c = '8' then some 8 else if c = '9' then some 9
  else if c = 'A' ∨ c = 'a' then some 0xA
  else if c = 'B' ∨ c = 'b' then some 0xB
  else if c = 'C' ∨ c = 'c' then some 0xC
  else if c = 'D' ∨ c = 'd' then some 0xD
  else if c = 'E' ∨ c = 'e' then some 0xE
  else if c = 'F' ∨ c = 'f' then some 0xF
  else none

/-- The `for _ in 0..=3` hex loop of the `\u` escape arm (lines 283-307):
reads exactly four hex digits, accumulating a `u16` code point (kept in
`% 2^16` although four hex digits cannot overflow). -/
def scanHex (st : LexState) (codepoint : Nat) : Nat → PRes (Nat × LexState)
  | 0 => .ok (codepoint, st)
  | k + 1 =>
    match st.currentChar with
    | none =>
      .panic "There must be more characters to recognize Unicode escape sequence"
    | some c =>
      match hexDigitValue c with
      | some v =>
        scanHex st.advance ((codepoint <<< 4 ||| v) % 65536) k
      | none =>
        if c = '"' then
          .err "An Unicode escape sequence must have four hexadecimal codepoint, but there's no codepoint anymore."
        else
          .err "An Unicode escape sequence must have four hexadecimal codepoint, but there's other character that is not valid a codepoint character."

/-- The main loop of `Lexer::scan_string_literal` (lines 220-333),
faithful to the source: in escape mode every recognized escape pushes its
decoded character and consumes; outside escape mode `"` breaks, `\` sets
the escape flag **without consuming** (so the escape arm re-reads the
backslash itself), a literal newline is an error, and any other character
is pushed **without consuming** (the loop then re-reads the same
character). -/
def scanStringLoop (fuel : Nat) (st : LexState) (inEscape : Bool)
    (buf : String) : PRes (String × LexState) :=
  match fuel with
  | 0 => .diverge
  | fuel + 1 =>
    match st.currentChar with
    | none => .panic "oops"
    | some c =>
      if inEscape then
        if c = '"' then scanStringLoop fuel st.advance false (buf.push '"')
        else if c = '\\' then
          scanStringLoop fuel st.advance false (buf.push '\\')
        else if c = 'a' then
          scanStringLoop fuel st.advance false (buf.push '\x07')
        else if c = 'b' then
          scanStringLoop fuel st.advance false (buf.push '\x08')
        else if c = 't' then
          scanStringLoop fuel st.advance false (buf.push '\t')
        else if c = 'n' then
          scanStringLoop fuel st.advance false (buf.push '\n')
        else if c = 'v' then
          scanStringLoop fuel st.advance false (buf.push '\x0b')
        else if c = 'f' then
          scanStringLoop fuel st.advance false (buf.push '\x0c')
        else if c = 'r' then
          scanStringLoop fuel st.advance false (buf.push '\x0d')
        else if c = 'u' then
          match scanHex st.advance 0 4 with
          | .diverge => .diverge
          | .panic m => .panic m
          | .err m => .err m
          | .ok (codepoint, st') =>
            if 0xD800 ≤ codepoint ∧ codepoint ≤ 0xDFFF then
              .err "This codepoint is invalid Unicode scalar value. The codepoint of unicode escape sequence must not be a surrogate code points."
            else
              scanStringLoop fuel st' false (buf.push (Char.ofNat codepoint))
        else
          .err "The char is not an acceptable char as escape-sequence."
      else
        if c = '"' then .ok (buf, st)
        else if c = '\\' then scanStringLoop fuel st true buf
        else if c = '\n' then
          .err "String literal can not contain newline literally. To script newline, please escape as newline-escape."
        else scanStringLoop fuel st false (buf.push c)

/-- Embeds `Lexer::scan_string_literal` (line 219): an unconditional `advance`
and then the scanning loop.  The caller (`next`) has already advanced past
the opening quote, so this second advance skips the first content
character. -/
def scanStringLiteral (fuel : Nat) (st : LexState) :
    PRes (String × LexState) :=
  scanStringLoop fuel st.advance false ""

/-- Embeds `Lexer::next` (lines 26-166), producing the token and the new cursor.
Faithfully kept quirks: the two-character lookaheads call
`current_char().expect("oops")` and so panic at end of input; the `<<` and
`>>` arms do not consume their second character; `scan_digits` /
`scan_lowers` have inverted break conditions; the string-literal arm
advances past the quote and then `scan_string_literal` advances again;
`Token::UnexpectedChar` does not consume the offending character. -/
def lexNext (fuel : Nat) (st : LexState) : PRes (Token × LexState) :=
  match drainSpace fuel st with
  | .diverge => .diverge
  | .panic m => .panic m
  | .err m => .err m
  | .ok st =>
  if st.reachedEnd then .ok (.endOfFile, st)
  else match st.currentChar with
  | none => .panic "oops"
  | some c =>
    if c = '\n' then .ok (.newLine, st.advance)
    else if c = '=' then
      match st.advance.currentChar with
      | none => .panic "oops"
      | some c2 =>
        if c2 = '=' then .ok (.partEqEq, st.advance.advance)
        else .ok (.symEq, st.advance)
    else if c = '+' then .ok (.symPlus, st.advance)
    else if c = '-' then .ok (.symMinus, st.advance)
    else if c = '*' then .ok (.symAsterisk, st.advance)
    else if c = '/' then
      match st.advance.currentChar with
      | none => .panic "oops"
      | some c2 =>
        if c2 = '/' then
          match scanCommentLoop fuel st.advance.advance "" with
          | .diverge => .diverge
          | .panic m => .panic m
          | .err m => .panic m
          | .ok (content, st') => .ok (.comment content, st')
        else .ok (.symSlash, st.advance)
    else if c = '(' then .ok (.symLeftPar, st.advance)
    else if c = ')' then .ok (.symRightPar, st.advance)
    else if c = '#' then .ok (.symSharp, st.advance)
    else if c = '[' then .ok (.symOpenBracket, st.advance)
    else if c = ']' then .ok (.symCloseBracket, st.advance)
    else if c = ':' then .ok (.symColon, st.advance)
    else if c = '.' then .ok (.symDot, st.advance)
    else if c = '<' then
      match st.advance.currentChar with
      | none => .panic "oops"
      | some c2 =>
        if c2 = '=' then
          match st.advance.advance.currentChar with
          | none => .panic "oops"
          | some c3 =>
            if c3 = '>' then .ok (.partLessEqMore, st.advance.advance.advance)
            else .ok (.partLessEq, st.advance.advance)
        else if c2 = '<' then .ok (.partLessLess, st.advance)
        else .ok (.symLess, st.advance)
    else if c = '>' then
      match st.advance.currentChar with
      | none => .panic "oops"
      | some c2 =>
        if c2 = '=' then .ok (.partMoreEq, st.advance.advance)
        else if c2 = '>' then .ok (.partMoreMore, st.advance)
        else .ok (.symMore, st.advance)
    else if c = '!' then
      match st.advance.currentChar with
      | none => .panic "oops"
      | some c2 =>
        if c2 = '=' then .ok (.partBangEq, st.advance.advance)
        else .ok (.symBang, st.advance)
    else if c = '"' then
      match scanStringLiteral fuel st.advance with
      | .diverge => .diverge
      | .panic m => .panic m
      | .err m => .panic m
      | .ok (content, st') =>
        match st'.currentChar with
        | none => .panic "index: out of range"
        | some cq =>
          if cq = '"' then .ok (.stringLiteral content, st'.advance)
          else .panic "The string literal is not terminated"
    else if c.isDigit then
      match scanDigitsLoop fuel st "" with
      | .diverge => .diverge
      | .panic m => .panic m
      | .err m => .panic m
      | .ok (buf, st') => .ok (.digits buf, st')
    else if c.isLower then
      match scanLowersLoop fuel st "" with
      | .diverge => .diverge
      | .panic m => .panic m
      | .err m => .panic m
      | .ok (scanResult, st') =>
        if KEYWORDS.contains scanResult then
          if scanResult = "var" then .ok (.varKeyword, st')
          else if scanResult = "true" then .ok (.keywordTrue, st')
          else if scanResult = "false" then .ok (.keywordFalse, st')
          else if scanResult = "as" then .ok (.keywordAs, st')
          else .ok (.reserved scanResult, st')
        else .ok (.identifier scanResult, st')
    else .ok (.unexpectedChar st.index c, st)

/-- Embeds `Lexer::peek` (lines 338-343): save the cursor, run `next`, restore
the cursor; on a panic inside `next` the restore never happens. -/
def lexPeek (fuel : Nat) (st : LexState) : PRes (Token × LexState) :=
  match lexNext fuel st with
  | .diverge => .diverge
  | .panic m => .panic m
  | .err m => .err m
  | .ok (token, _) => .ok (token, st)

/-- The 8-character source text `"a\tb\n"` of claim C6, as characters. -/
def c6Source : List Char := ['"', 'a', '\\', 't', 'b', '\\', 'n', '"']

/-- The 8-character source text `"\uD800"` of claim C7, as characters. -/
def c7Source : List Char := ['"', '\\', 'u', 'D', '8', '0', '0', '"']

/-!
## Statement/expression parser of `src/src/compiler/parser.rs` (the
`parse0` ladder, lines 178-442)

The parser pulls tokens from its lexer only through `peek`/`next`; the
embedding therefore runs it over the token stream itself, modelled as a
`List Token` whose `peek` is the head (or `EndOfFile` when exhausted,
matching the lexer's idempotent terminal state) and whose `next` pops the
head.  Recursion is fuel-indexed (the parenthesized arm of `parse_first`
re-enters `parse_additive`); every recursive call decrements the single
fuel, so a concrete parse computes by `rfl` at any large enough fuel.
-/

/-- Debug rendering of a token, standing in for Rust `{:?}` inside
`assert_eq!` panic messages. -/
def tokenDebug : Token → String
  | .identifier inner => "Identifier(" ++ inner ++ ")"
  | .digits sequence => "Digits(" ++ sequence ++ ")"
  | .unexpectedChar i c => "UnexpectedChar(" ++ toString i ++ ", " ++ String.singleton c ++ ")"
  | .comment content => "Comment(" ++ content ++ ")"
  | .stringLiteral content => "StringLiteral(" ++ content ++ ")"
  | .endOfFile => "EndOfFile"
  | .newLine => "NewLine"
  | .varKeyword => "VarKeyword"
  | .keywordTrue => "KeywordTrue"
  | .keywordFalse => "KeywordFalse"
  | .keywordAs => "KeywordAs"
  | .symEq => "SymEq"
  | .symPlus => "SymPlus"
  | .symMinus => "SymMinus"
  | .symAsterisk => "SymAsterisk"
  | .symSlash => "SymSlash"
  | .symLeftPar => "SymLeftPar"
  | .symRightPar => "SymRightPar"
  | .symMore => "SymMore"
  | .partMoreMore => "PartMoreMore"
  | .symLess => "SymLess"
  | .partLessLess => "PartLessLess"
  | .symAnd => "SymAnd"
  | .partAndAnd => "PartAndAnd"
  | .symCaret => "SymCaret"
  | .symPipe => "SymPipe"
  | .partPipePipe => "PartPipePipe"
  | .symBang => "SymBang"
  | .partEqEq => "PartEqEq"
  | .partBangEq => "PartBangEq"
  | .partLessEq => "PartLessEq"
  | .partMoreEq => "PartMoreEq"
  | .partLessEqMore => "PartLessEqMore"
  | .symSharp => "SymSharp"
  | .symOpenBracket => "SymOpenBracket"
  | .symCloseBracket => "SymCloseBracket"
  | .symColon => "SymColon"
  | .symDot => "SymDot"
  | .reserved matched => "Reserved(" ++ matched ++ ")"

/-- Embeds `lexer.peek()` over the token-stream abstraction: the head of the
remaining stream, or `EndOfFile` forever once exhausted. -/
def peekT (ts : List Token) : Token := ts.headD Token.endOfFile

/-- Embeds `lexer.next()` over the token-stream abstraction: the parsers below
inline it as the pair of `peekT ts` (the consumed token) and `ts.tail`
(the remaining stream). -/
def nextT (ts : List Token) : Token × List Token := (peekT ts, ts.tail)

/-- One decimal digit of Rust's `i32::from_str`. -/
def charDigit? (c : Char) : Option Nat :=
  if c.isDigit then some (c.toNat - '0'.toNat) else none

/-- The digit-accumulation loop of Rust's `i32::from_str` (unbounded here;
the range check is applied by `parseI32`). -/
def digitsVal? (acc : Nat) : List Char → Option Nat
  | [] => some acc
  | c :: cs =>
    match charDigit? c with
    | some d => digitsVal? (acc * 10 + d) cs
    | none => none

/-- Embeds `"…".parse::<i32>()` (Rust `i32::from_str`): an optional `+`/`-` sign
followed by a nonempty run of decimal digits, rejected when out of the
i32 range; error strings follow `ParseIntError`'s renderings (the
negative-overflow message is collapsed into the positive one). -/
def parseI32 (s : String) : Except String Int :=
  match s.toList with
  | [] => .error "cannot parse integer from empty string"
  | c :: cs =>
    let signDigits : Bool × List Char :=
      if c = '-' then (true, cs)
      else if c = '+' then (false, cs) else (false, c :: cs)
    match signDigits with
    | (neg, ds) =>
      if ds.isEmpty then .error "invalid digit found in string"
      else
        match digitsVal? 0 ds with
        | some nv =>
          let v : Int := if neg then -(nv : Int) else (nv : Int)
          if -2147483648 ≤ v ∧ v ≤ 2147483647 then .ok v
          else .error "number too large to fit in target type"
        | none => .error "invalid digit found in string"

namespace MainParser

/-- Embeds `MultiplicativeOperatorKind` (constructed at parser.rs lines 266-267). -/
inductive MultiplicativeOperatorKind : Type where
  | multiple | divide
deriving DecidableEq, Repr

/-- Embeds `AdditiveOperatorKind` (constructed at parser.rs lines 308-309). -/
inductive AdditiveOperatorKind : Type where
  | plus | minus
deriving DecidableEq, Repr

/-- Embeds `RelationExpressionOperator` (constructed at parser.rs lines 347-351). -/
inductive RelationExpressionOperator : Type where
  | lessEqual | moreEqual | less | more | spaceShip
deriving DecidableEq, Repr

/-- Embeds `EqualityExpressionOperator` (constructed at parser.rs lines 386-387). -/
inductive EqualityExpressionOperator : Type where
  | equal | notEqual
deriving DecidableEq, Repr

mutual
/-- The `First` node family used by `Parser::parse_first` (parser.rs lines
216-248): int literal, parenthesized additive sub-expression, variable
reference, boolean literal.  (The type's declaration is not part of this
snapshot; its shape is reconstructed from the constructor calls in
`parse_first`.) -/
inductive First : Type where
  | Variable (name : String)
  | intLiteral (value : Int)
  | parenthesized (inner : Additive)
  | kwTrue
  | kwFalse

/-- The `Multiplicative` node family used by `parse_multiplicative`
(binary node or propagated `First`). -/
inductive Multiplicative : Type where
  | binary (operator : MultiplicativeOperatorKind)
      (lhs rhs : Multiplicative)
  | propagated (first : First)

/-- The `Additive` node family used by `parse_additive`. -/
inductive Additive : Type where
  | binary (operator : AdditiveOperatorKind) (lhs rhs : Additive)
  | propagated (inner : Multiplicative)
end

/-- The `RelationExpression` node family used by
`parse_relation_expression`. -/
inductive RelationExpression : Type where
  | binary (operator : RelationExpressionOperator)
      (lhs rhs : RelationExpression)
  | propagated (inner : Additive)

/-- The `EqualityExpression` node family used by
`parse_equality_expression`. -/
inductive EqualityExpression : Type where
  | binary (operator : EqualityExpressionOperator)
      (lhs rhs : EqualityExpression)
  | propagated (inner : RelationExpression)

/-- The `Statement` variants constructed by `parse_statement` /
`parse_variable_declaration` (parser.rs lines 203-205, 437-440). -/
inductive Statement : Type where
  | print (expression : EqualityExpression)
  | variableDeclaration (identifier : String)
      (expression : EqualityExpression)

/-- Embeds `RootAst` as constructed by `parse0` (parser.rs line 192-194, field
`statement`). -/
structure RootAst : Type where
  statement : List Statement

/-- Embeds `Parser::parse_int_literal` (parser.rs lines 410-417): consume one
token, require `Digits`, parse it as `i32`. -/
def parseIntLiteral (ts : List Token) : PRes (Int × List Token) :=
  match peekT ts with
  | .digits sequence =>
    match parseI32 sequence with
    | .ok v => .ok (v, ts.tail)
    | .error e => .err e
  | _ => .err "int literal is expected"

/-- The `asterisk_or_slash` closure (parser.rs lines 254-256). -/
def asteriskOrSlash (t : Token) : Bool :=
  t = Token.symAsterisk || t = Token.symSlash

/-- The multiplicative `get_operator_from_token` closure (parser.rs lines
264-270); `none` is the `panic!("excess token")` arm. -/
def getOpMultiplicative : Token → Option MultiplicativeOperatorKind
  | .symAsterisk => some .multiple
  | .symSlash => some .divide
  | _ => none

/-- The `plus_or_minus` closure (parser.rs lines 296-298). -/
def plusOrMinus (t : Token) : Bool :=
  t = Token.symPlus || t = Token.symMinus

/-- The additive `get_operator_from_token` closure (parser.rs lines
306-312); `none` is the `panic!("excess token")` arm. -/
def getOpAdditive : Token → Option AdditiveOperatorKind
  | .symPlus => some .plus
  | .symMinus => some .minus
  | _ => none

/-- The `is_relation_operator` closure (parser.rs lines 336-338). -/
def isRelationOperator (t : Token) : Bool :=
  t = Token.partLessEq || t = Token.partMoreEq || t = Token.symLess ||
    t = Token.symMore || t = Token.partLessEqMore

/-- The relational `get_operator_from_token` closure (parser.rs lines
345-354); `none` is the `panic!("excess token")` arm. -/
def getOpRelation : Token → Option RelationExpressionOperator
  | .partLessEq => some .lessEqual
  | .partMoreEq => some .moreEqual
  | .symLess => some .less
  | .symMore => some .more
  | .partLessEqMore => some .spaceShip
  | _ => none

/-- The equality `is_relation_operator` closure (parser.rs lines 375-377). -/
def isEqualityOperator (t : Token) : Bool :=
  t = Token.partEqEq || t = Token.partBangEq

/-- The equality `get_operator_from_token` closure (parser.rs lines
384-390); `none` is the `panic!("excess token")` arm. -/
def getOpEquality : Token → Option EqualityExpressionOperator
  | .partEqEq => some .equal
  | .partBangEq => some .notEqual
  | _ => none

mutual
/-- Embeds `Parser::parse_first` (parser.rs lines 216-248).  The parenthesized
arm re-enters the grammar at `parse_additive` (hence the fuel); its first
`assert_eq!` consumes the already-peeked `SymLeftPar` and cannot fail, the
second panics when the closing `SymRightPar` is missing. -/
def parseFirst : Nat → List Token → PRes (First × List Token)
  | 0, _ => .diverge
  | fuel + 1, ts =>
    match peekT ts with
    | .identifier inner => .ok (.Variable inner, ts.tail)
    | .digits _ =>
      match parseIntLiteral ts with
      | .ok (v, ts1) => .ok (.intLiteral v, ts1)
      | .err m => .err m
      | .panic m => .panic m
      | .diverge => .diverge
    | .symLeftPar =>
      match parseAdditive fuel ts.tail with
      | .ok (inner, ts2) =>
        if peekT ts2 = Token.symRightPar then
          .ok (.parenthesized inner, ts2.tail)
        else .panic ("assertion failed: expected SymRightPar, got: " ++
          tokenDebug (peekT ts2))
      | .err m => .err m
      | .panic m => .panic m
      | .diverge => .diverge
    | .keywordTrue => .ok (.kwTrue, ts.tail)
    | .keywordFalse => .ok (.kwFalse, ts.tail)
    | _ => .err "int literal, boolean literal or identifier is expected"

/-- Embeds `Parser::parse_multiplicative` (parser.rs lines 251-288): one `First`
term, then an optional left-folding `*`/`/` chain. -/
def parseMultiplicative : Nat → List Token → PRes (Multiplicative × List Token)
  | 0, _ => .diverge
  | fuel + 1, ts =>
    match parseFirst fuel ts with
    | .ok (firstTerm, ts1) =>
      let nextToken := peekT ts1
      if asteriskOrSlash nextToken then
        match parseFirst fuel ts1.tail with
        | .ok (rhs, ts2) =>
          match getOpMultiplicative nextToken with
          | some op =>
            multiplicativeLoop fuel
              (.binary op (.propagated firstTerm) (.propagated rhs)) ts2
          | none => .panic ("excess token: " ++ tokenDebug nextToken)
        | .err m => .err m
        | .panic m => .panic m
        | .diverge => .diverge
      else .ok (.propagated firstTerm, ts1)
    | .err m => .err m
    | .panic m => .panic m
    | .diverge => .diverge

/-- The `while asterisk_or_slash` loop of `parse_multiplicative` (parser.rs
lines 273-282): repack into a left-associative accumulator. -/
def multiplicativeLoop : Nat → Multiplicative → List Token →
    PRes (Multiplicative × List Token)
  | 0, _, _ => .diverge
  | fuel + 1, acc, ts =>
    let operatorToken := peekT ts
    if asteriskOrSlash operatorToken then
      match parseFirst fuel ts.tail with
      | .ok (newRhs, ts2) =>
        match getOpMultiplicative operatorToken with
        | some op =>
          multiplicativeLoop fuel (.binary op acc (.propagated newRhs)) ts2
        | none => .panic ("excess token: " ++ tokenDebug operatorToken)
      | .err m => .err m
      | .panic m => .panic m
      | .diverge => .diverge
    else .ok (acc, ts)

/-- Embeds `Parser::parse_additive` (parser.rs lines 293-330): one
`Multiplicative` term, then an optional left-folding `+`/`-` chain. -/
def parseAdditive : Nat → List Token → PRes (Additive × List Token)
  | 0, _ => .diverge
  | fuel + 1, ts =>
    match parseMultiplicative fuel ts with
    | .ok (firstTerm, ts1) =>
      let nextToken := peekT ts1
      if plusOrMinus nextToken then
        match parseMultiplicative fuel ts1.tail with
        | .ok (rhs, ts2) =>
          match getOpAdditive nextToken with
          | some op =>
            additiveLoop fuel
              (.binary op (.propagated firstTerm) (.propagated rhs)) ts2
          | none => .panic ("excess token: " ++ tokenDebug nextToken)
        | .err m => .err m
        | .panic m => .panic m
        | .diverge => .diverge
      else .ok (.propagated firstTerm, ts1)
    | .err m => .err m
    | .panic m => .panic m
    | .diverge => .diverge

/-- The `while plus_or_minus` loop of `parse_additive` (parser.rs lines
315-324). -/
def additiveLoop : Nat → Additive → List Token →
    PRes (Additive × List Token)
  | 0, _, _ => .diverge
  | fuel + 1, acc, ts =>
    let operatorToken := peekT ts
    if plusOrMinus operatorToken then
      match parseMultiplicative fuel ts.tail with
      | .ok (newRhs, ts2) =>
        match getOpAdditive operatorToken with
        | some op =>
          additiveLoop fuel (.binary op acc (.propagated newRhs)) ts2
        | none => .panic ("excess token: " ++ tokenDebug operatorToken)
      | .err m => .err m
      | .panic m => .panic m
      | .diverge => .diverge
    else .ok (acc, ts)

/-- Embeds `Parser::parse_relation_expression` (parser.rs lines 333-369). -/
def parseRelationExpression : Nat → List Token →
    PRes (RelationExpression × List Token)
  | 0, _ => .diverge
  | fuel + 1, ts =>
    match parseAdditive fuel ts with
    | .ok (firstTerm, ts1) =>
      let nextToken := peekT ts1
      if isRelationOperator nextToken then
        match parseAdditive fuel ts1.tail with
        | .ok (rhs, ts2) =>
          match getOpRelation nextToken with
          | some op =>
            relationLoop fuel
              (.binary op (.propagated firstTerm) (.propagated rhs)) ts2
          | none => .panic ("excess token: " ++ tokenDebug nextToken)
        | .err m => .err m
        | .panic m => .panic m
        | .diverge => .diverge
      else .ok (.propagated firstTerm, ts1)
    | .err m => .err m
    | .panic m => .panic m
    | .diverge => .diverge

/-- The relational while-loop (parser.rs lines 357-364). -/
def relationLoop : Nat → RelationExpression → List Token →
    PRes (RelationExpression × List Token)
  | 0, _, _ => .diverge
  | fuel + 1, acc, ts =>
    let operatorToken := peekT ts
    if isRelationOperator operatorToken then
      match parseAdditive fuel ts.tail with
      | .ok (newRhs, ts2) =>
        match getOpRelation operatorToken with
        | some op =>
          relationLoop fuel (.binary op acc (.propagated newRhs)) ts2
        | none => .panic ("excess token: " ++ tokenDebug operatorToken)
      | .err m => .err m
      | .panic m => .panic m
      | .diverge => .diverge
    else .ok (acc, ts)

/-- Embeds `Parser::parse_equality_expression` (parser.rs lines 372-405). -/
def parseEqualityExpression : Nat → List Token →
    PRes (EqualityExpression × List Token)
  | 0, _ => .diverge
  | fuel + 1, ts =>
    match parseRelationExpression fuel ts with
    | .ok (firstTerm, ts1) =>
      let nextToken := peekT ts1
      if isEqualityOperator nextToken then
        match parseRelationExpression fuel ts1.tail with
        | .ok (rhs, ts2) =>
          match getOpEquality nextToken with
          | some op =>
            equalityLoop fuel
              (.binary op (.propagated firstTerm) (.propagated rhs)) ts2
          | none => .panic ("excess token: " ++ tokenDebug nextToken)
        | .err m => .err m
        | .panic m => .panic m
        | .diverge => .diverge
      else .ok (.propagated firstTerm, ts1)
    | .err m => .err m
    | .panic m => .panic m
    | .diverge => .diverge

/-- The equality while-loop (parser.rs lines 393-400). -/
def equalityLoop : Nat → EqualityExpression → List Token →
    PRes (EqualityExpression × List Token)
  | 0, _, _ => .diverge
  | fuel + 1, acc, ts =>
    let operatorToken := peekT ts
    if isEqualityOperator operatorToken then
      match parseRelationExpression fuel ts.tail with
      | .ok (newRhs, ts2) =>
        match getOpEquality operatorToken with
        | some op =>
          equalityLoop fuel (.binary op acc (.propagated newRhs)) ts2
        | none => .panic ("excess token: " ++ tokenDebug operatorToken)
      | .err m => .err m
      | .panic m => .panic m
      | .diverge => .diverge
    else .ok (acc, ts)
end

/-- Embeds `Parser::parse_variable_declaration` (parser.rs lines 426-441):
`assert_token_eq_with_consumed(VarKeyword)`, identifier (an `Err` when
missing), `assert_token_eq_with_consumed(SymEq)`, then a full equality
expression. -/
def parseVariableDeclaration (fuel : Nat) (ts : List Token) :
    PRes (Statement × List Token) :=
  if peekT ts = Token.varKeyword then
    match peekT ts.tail with
    | .identifier inner =>
      if peekT ts.tail.tail = Token.symEq then
        match parseEqualityExpression fuel ts.tail.tail.tail with
        | .ok (expression, ts4) =>
          .ok (.variableDeclaration inner expression, ts4)
        | .err m => .err m
        | .panic m => .panic m
        | .diverge => .diverge
      else .panic ("expected: SymEq, got: " ++ tokenDebug (peekT ts.tail.tail))
    | _ => .err "identifier expected"
  else .panic ("expected: VarKeyword, got: " ++ tokenDebug (peekT ts))

/-- Embeds `Parser::parse_statement` (parser.rs lines 197-211): a `var` statement
or a bare-expression `Print` statement, then the unconditional
`assert_eq!(self.lexer.next(), Token::NewLine, "statement must be
terminated by a newline")`. -/
def parseStatement (fuel : Nat) (ts : List Token) :
    PRes (Statement × List Token) :=
  let head := peekT ts
  match (if head = Token.varKeyword then parseVariableDeclaration fuel ts
         else
           match parseEqualityExpression fuel ts with
           | .ok (e, ts1) => .ok (Statement.print e, ts1)
           | .err m => .err m
           | .panic m => .panic m
           | .diverge => .diverge) with
  | .ok (result, ts1) =>
    if peekT ts1 = Token.newLine then .ok (result, ts1.tail)
    else .panic ("statement must be terminated by a newline: " ++
      tokenDebug (peekT ts1))
  | .err m => .err m
  | .panic m => .panic m
  | .diverge => .diverge

/-- The `while self.lexer.peek() != Token::EndOfFile` loop of
`Parser::parse0` (parser.rs lines 181-195), together with the post-loop
check that the final `next()` yields `EndOfFile` or `NewLine` (anything
else panics). -/
def parse0Loop : Nat → List Statement → List Token →
    PRes (RootAst × List Token)
  | 0, _, _ => .diverge
  | fuel + 1, acc, ts =>
    if peekT ts ≠ Token.endOfFile then
      match parseStatement fuel ts with
      | .ok (res, ts1) => parse0Loop fuel (acc ++ [res]) ts1
      | .err m => .err m
      | .panic m => .panic m
      | .diverge => .diverge
    else
      match peekT ts with
      | .endOfFile => .ok (⟨acc⟩, ts.tail)
      | .newLine => .ok (⟨acc⟩, ts.tail)
      | other =>
        .panic ("parse_statement assertion: unconsumed token found: " ++
          tokenDebug other)

/-- Embeds `Parser::parse0` (parser.rs lines 181-195). -/
def parse0 (fuel : Nat) (ts : List Token) : PRes (RootAst × List Token) :=
  parse0Loop fuel [] ts

mutual
/-- Modelled from the spec: standard integer evaluation of the parsed
AST, the measuring stick for "evaluates to 14 / 5" in claim C1.  (The
repository's own `Additive`/`Multiplicative` evaluation in
`src/src/test_interpreter.rs` is `todo!()` on every numeric path, so the
spec's standard arithmetic is modelled instead; division is Rust's
truncating `i32` division.) -/
def evalFirst : First → Option Int
  | .Variable _ => none
  | .intLiteral v => some v
  | .parenthesized inner => evalAdditive inner
  | .kwTrue => none
  | .kwFalse => none

/-- Modelled from the spec: see `evalFirst`. -/
def evalMultiplicative : Multiplicative → Option Int
  | .binary op l r =>
    match evalMultiplicative l, evalMultiplicative r with
    | some a, some b =>
      match op with
      | .multiple => some (a * b)
      | .divide => if b = 0 then none else some (Int.tdiv a b)
    | _, _ => none
  | .propagated f => evalFirst f

/-- Modelled from the spec: see `evalFirst`. -/
def evalAdditive : Additive → Option Int
  | .binary op l r =>
    match evalAdditive l, evalAdditive r with
    | some a, some b =>
      match op with
      | .plus => some (a + b)
      | .minus => some (a - b)
    | _, _ => none
  | .propagated m => evalMultiplicative m
end

end MainParser

/-!
## Statement parser of `src/toolchain/src/compiler/parser.rs`

A later snapshot of the statement layer: `Statement::read` recognizes only
`var` declarations and the `NoMoreStatements` sentinel at `EndOfFile`, and
`RootAst::read` collects statements with `while let Ok`.  Same
token-stream abstraction as above.
-/

namespace Toolchain

/-- Embeds `IdentifierOrMemberPath` (toolchain parser.rs lines 147-150); an
`Identifier` wraps one string, a `MemberPath` packs a list of them. -/
inductive IdentifierOrMemberPath : Type where
  | identifier (inner : String)
  | memberPath (pack : List String)
deriving DecidableEq, Repr

/-- Embeds `UnresolvedTypeName` (toolchain parser.rs line 137). -/
structure UnresolvedTypeName : Type where
  inner : IdentifierOrMemberPath
deriving DecidableEq, Repr

/-- Embeds `Statement` (toolchain parser.rs lines 86-96). -/
inductive Statement : Type where
  | nodeDeclaration (identifier : String)
      (type_tag : Option UnresolvedTypeName) (rhs : IdentifierOrMemberPath)
  | comment (content : String)
  | noMoreStatements
deriving DecidableEq, Repr

/-- Embeds `RootAst` (toolchain parser.rs lines 48-50). -/
structure RootAst : Type where
  commands : List Statement
deriving DecidableEq, Repr

/-- Embeds `Identifier::read` (toolchain parser.rs lines 70-83): peek, consume on
a match, `Err` otherwise. -/
def identifierRead (ts : List Token) : PRes (String × List Token) :=
  match peekT ts with
  | .identifier inner => .ok (inner, ts.tail)
  | other => .err ("excess token: " ++ tokenDebug other)

/-- The loop of `MemberPath::read` (toolchain parser.rs lines 173-197):
identifier, then continue past each `SymDot`. -/
def memberPathLoop : Nat → List String → List Token →
    PRes (List String × List Token)
  | 0, _, _ => .diverge
  | fuel + 1, buf, ts =>
    match peekT ts with
    | .identifier inner =>
      match peekT ts.tail with
      | .symDot => memberPathLoop fuel (buf ++ [inner]) ts.tail.tail
      | _ => .ok (buf ++ [inner], ts.tail)
    | other =>
      .err ("excess token: expected identifier, actual " ++ tokenDebug other)

/-- Embeds `MemberPath::read` (toolchain parser.rs lines 170-198). -/
def memberPathRead (fuel : Nat) (ts : List Token) :
    PRes (List String × List Token) :=
  memberPathLoop fuel [] ts

/-- Embeds `IdentifierOrMemberPath::read` (toolchain parser.rs lines 152-164):
try `Identifier::read` (which does not consume on failure), then
`MemberPath::read`, else fail. -/
def identifierOrMemberPathRead (fuel : Nat) (ts : List Token) :
    PRes (IdentifierOrMemberPath × List Token) :=
  match identifierRead ts with
  | .ok (ident, ts1) => .ok (.identifier ident, ts1)
  | .err _ =>
    match memberPathRead fuel ts with
    | .ok (mp, ts1) => .ok (.memberPath mp, ts1)
    | .err _ => .err "Expected: Identifier | MemberPath"
    | .panic m => .panic m
    | .diverge => .diverge
  | .panic m => .panic m
  | .diverge => .diverge

/-- Embeds `UnresolvedTypeName::read` (toolchain parser.rs lines 139-145). -/
def unresolvedTypeNameRead (fuel : Nat) (ts : List Token) :
    PRes (UnresolvedTypeName × List Token) :=
  match identifierOrMemberPathRead fuel ts with
  | .ok (v, ts1) => .ok (⟨v⟩, ts1)
  | .err m => .err m
  | .panic m => .panic m
  | .diverge => .diverge

/-- Embeds `Statement::read` (toolchain parser.rs lines 98-135): a `var`
declaration, `Ok(NoMoreStatements)` at `EndOfFile` (without consuming),
or `Err` on any other token. -/
def statementRead : Nat → List Token → PRes (Statement × List Token)
  | 0, _ => .diverge
  | fuel + 1, ts =>
    match peekT ts with
    | .varKeyword =>
      match peekT ts.tail with
      | .identifier inner =>
        match ((if peekT ts.tail.tail = Token.symColon then
                 match unresolvedTypeNameRead fuel ts.tail.tail.tail with
                 | .ok (tt, ts3) =>
                   .ok (some tt, ts3)
                 | .err m => .err m
                 | .panic m => .panic m
                 | .diverge => .diverge
               else .ok (none, ts.tail.tail)) :
                 PRes (Option UnresolvedTypeName × List Token)) with
        | .ok (type_tag, ts3) =>
          if peekT ts3 = Token.symEq then
            match identifierOrMemberPathRead fuel ts3.tail with
            | .ok (node, ts4) =>
              .ok (.nodeDeclaration inner type_tag node, ts4)
            | .err m => .err m
            | .panic m => .panic m
            | .diverge => .diverge
          else .panic ("SymEq expected: " ++ tokenDebug (peekT ts3))
        | .err m => .err m
        | .panic m => .panic m
        | .diverge => .diverge
      | other => .err ("Expected: Identifier, Actual: " ++ tokenDebug other)
    | .endOfFile => .ok (.noMoreStatements, ts)
    | other => .err ("excess token: " ++ tokenDebug other)

/-- The `while let Ok(parsed_statement) = parser.parse()` loop of
`RootAst::read` (toolchain parser.rs lines 55-65): push every `Ok`
statement, exit (returning `Ok`) only on an `Err`. -/
def rootAstLoop : Nat → List Statement → List Token → PRes RootAst
  | 0, _, _ => .diverge
  | fuel + 1, acc, ts =>
    match statementRead fuel ts with
    | .ok (stmt, ts1) => rootAstLoop fuel (acc ++ [stmt]) ts1
    | .err _ => .ok ⟨acc⟩
    | .panic m => .panic m
    | .diverge => .diverge

/-- Embeds `RootAst::read` (toolchain parser.rs lines 52-66). -/
def rootAstRead (fuel : Nat) (ts : List Token) : PRes RootAst :=
  rootAstLoop fuel [] ts

end Toolchain


/-!
## Expression AST of `compiler/parser/expression.rs` (Cast level)

Both snapshots of `Cast::read` (`src/src/compiler/parser/expression.rs`
and `src/toolchain/src/compiler/parser/expression.rs`, lines 78-94) are
identical; the embedding below is of that shared code.
-/

namespace ExprTree

/-- Embeds `First` from `expression.rs` (lines 18-30). -/
inductive First : Type where
  | integralLiteral (sequence : String)
  | stringLiteral (sequence : String)
  | Variable (identifier : String)
  | kwTrue
  | kwFalse
deriving DecidableEq, Repr

/-- Embeds `Cast` from `expression.rs` (lines 70-76): its own doc comment reads
"left-associative / e.g. `1 as u16 as u32` is equivalent with
`(1 as u16) as u32`". -/
inductive Cast : Type where
  | Do (lhs : Cast) (tp : Toolchain.UnresolvedTypeName)
  | propagated (first : First)
deriving DecidableEq, Repr

/-- Embeds `Cast::read` (expression.rs lines 81-93), faithful to the source: its
first action is `parser.parse::<Cast>()` — a recursive call to itself
with no token consumed — after which at most one `as TypeName` suffix
would be attached. -/
def castRead : Nat → List Token → PRes (Cast × List Token)
  | 0, _ => .diverge
  | fuel + 1, ts =>
    match castRead fuel ts with
    | .ok (firstTerm, ts1) =>
      if peekT ts1 = Token.keywordAs then
        match Toolchain.unresolvedTypeNameRead fuel ts1.tail with
        | .ok (typeName, ts2) => .ok (.Do firstTerm typeName, ts2)
        | .err m => .err m
        | .panic m => .panic m
        | .diverge => .diverge
      else .ok (firstTerm, ts1)
    | .err m => .err m
    | .panic m => .panic m
    | .diverge => .diverge

end ExprTree

/-!
## Theorems

All definitions above; every theorem about them below.
-/

theorem resolveName_eq_lookupChain (s : String) :
    resolveName s = lookupChain resolveTable s := rfl

theorem lookupChain_isSome (l : List (String × SupportedTypeTag))
    (s : String) :
    (lookupChain l s).isSome = true ↔ s ∈ l.map Prod.fst := by
  induction l with
  | nil => simp [lookupChain]
  | cons kv rest ih =>
    obtain ⟨k, v⟩ := kv
    simp only [lookupChain, List.map_cons, List.mem_cons]
    split_ifs with h <;> simp_all

/-- C3: cast evaluation, given a source value and a resolved target tag:
(1) if the target tag equals the source tag the value passes through
unchanged; (2) the cast succeeds exactly when it is an identity cast or the
(source tag, target tag) pair lies on the claimed widening lattice — so
every narrowing cast and every cast into `bool` errors; (3) every
successful cast preserves the value: identity casts return the box itself,
widening casts preserve the (present) numeric value. -/
theorem cast_follows_widening_lattice
    (lhs : SupportedTypeBox) (tt : SupportedTypeTag) :
    (lhs.tag = tt → evaluateCast lhs tt = .ok lhs) ∧
    ((evaluateCast lhs tt).isOk =
      (lhs.tag == tt || specWideningLattice lhs.tag tt)) ∧
    (∀ v, evaluateCast lhs tt = .ok v →
      v = lhs ∨
      (numericValue v = numericValue lhs ∧ (numericValue lhs).isSome)) := by
  cases lhs <;> cases tt <;>
    simp [evaluateCast, SupportedTypeBox.tag, specWideningLattice,
      numericValue, Except.isOk, Except.toBool]

/-- Witness for C3 at concrete inputs: the identity cast `i32 → i32`
passes the value through via part (1) of the theorem. -/
theorem cast_follows_widening_lattice_witness :
    evaluateCast (.i32 5) .i32 = .ok (.i32 5) :=
  (cast_follows_widening_lattice (.i32 5) .i32).1 (by rfl)

/-- C9: `resolve_dynamic` is a pure function of the dot-joined member path
(it factors through `String.intercalate "."`); the joined name resolves to
`some` tag exactly for the thirteen whitelisted primitive names, with the
table mapping each name to its tag; every other name yields `none`, and
cast evaluation turns that `none` into a fatal error for the cast target. -/
theorem resolve_dynamic_whitelist :
    (∀ p q : List String,
      String.intercalate "." p = String.intercalate "." q →
      resolve_dynamic p = resolve_dynamic q) ∧
    (∀ s : String, (resolveName s).isSome = true ↔ s ∈ typeNameWhitelist) ∧
    (resolveName "bool" = some .bool ∧ resolveName "i8" = some .i8 ∧
     resolveName "u8" = some .u8 ∧ resolveName "i16" = some .i16 ∧
     resolveName "u16" = some .u16 ∧ resolveName "i32" = some .i32 ∧
     resolveName "u32" = some .u32 ∧ resolveName "i64" = some .i64 ∧
     resolveName "u64" = some .u64 ∧ resolveName "f32" = some .f32 ∧
     resolveName "f64" = some .f64 ∧ resolveName "string" = some .string ∧
     resolveName "impulse" = some .impulse) ∧
    (∀ (lhs : SupportedTypeBox) (p : List String),
      resolve_dynamic p = none →
      evaluateCastDo lhs p =
        .error (String.intercalate "." p ++ " is not supported type")) := by
  refine ⟨?_, ?_, by decide, ?_⟩
  · intro p q h
    simp [resolve_dynamic, h]
  · intro s
    rw [resolveName_eq_lookupChain, lookupChain_isSome]
    rfl
  · intro lhs p h
    simp [evaluateCastDo, h]

/-- Witness for C9 at concrete inputs: the unknown dotted name
`foo.bar` resolves to `none` and makes the cast fail fatally. -/
theorem resolve_dynamic_whitelist_witness :
    evaluateCastDo (.i32 1) ["foo", "bar"] =
      .error ("foo.bar" ++ " is not supported type") :=
  resolve_dynamic_whitelist.2.2.2 (.i32 1) ["foo", "bar"] (by decide)

theorem currentChar_some_not_end (st : LexState) (c : Char)
    (h : st.currentChar = some c) : st.reachedEnd = false := by
  simp only [LexState.reachedEnd, decide_eq_false_iff_not, Nat.not_le]
  by_contra hle
  rw [LexState.currentChar, List.get?_eq_none.mpr (Nat.le_of_not_lt hle)] at h
  exact Option.noConfusion h

/-- C5: `Lexer::peek` restores the cursor exactly: whenever `next` from
state `st` returns a token, `peek` from `st` returns the same token with
the cursor still at `st`; chaining a second `peek` from the state left by
the first yields the same token again with the cursor still at `st`; and
chaining `next` after a `peek` returns that same token (with `next`'s
advanced cursor). -/
theorem peek_restores_cursor (fuel : Nat) (st : LexState) (t : Token)
    (st' : LexState) (h : lexNext fuel st = .ok (t, st')) :
    lexPeek fuel st = .ok (t, st) ∧
    (lexPeek fuel st).bind (fun r => lexPeek fuel r.2) = .ok (t, st) ∧
    (lexPeek fuel st).bind (fun r => lexNext fuel r.2) = .ok (t, st') := by
  simp [lexPeek, PRes.bind, h]

/-- Witness for C5 at a concrete state: the source `"\n"` at offset 0. -/
theorem peek_restores_cursor_witness :
    lexPeek 1 ⟨['\n'], 0⟩ = .ok (.newLine, ⟨['\n'], 0⟩) ∧
    (lexPeek 1 ⟨['\n'], 0⟩).bind (fun r => lexPeek 1 r.2) =
      .ok (.newLine, ⟨['\n'], 0⟩) ∧
    (lexPeek 1 ⟨['\n'], 0⟩).bind (fun r => lexNext 1 r.2) =
      .ok (.newLine, ⟨['\n'], 1⟩) :=
  peek_restores_cursor 1 ⟨['\n'], 0⟩ .newLine ⟨['\n'], 1⟩ rfl

theorem scanStringLoop_stuck_c6 :
    ∀ fuel buf, scanStringLoop fuel ⟨c6Source, 3⟩ false buf = .diverge := by
  intro fuel
  induction fuel with
  | zero => intro buf; rfl
  | succ n ih => intro buf; exact ih (buf.push 't')

theorem scanStringLoop_stuck_c6_start :
    ∀ fuel buf, scanStringLoop fuel ⟨c6Source, 2⟩ false buf = .diverge := by
  intro fuel buf
  match fuel with
  | 0 => rfl
  | 1 => rfl
  | n + 2 => exact scanStringLoop_stuck_c6 n (buf.push '\\')

/-- C6 is a code bug: lexing the 8-character source text `"a\tb\n"` never
terminates, for every fuel bound.  The opening-quote arm of `next` advances
past the quote and `scan_string_literal` advances a second time (skipping
the `a`), and the unescaped branch pushes a content character without ever
consuming it, so the loop re-reads `t` forever; no `StringLiteral` token
with decoded content `a`, TAB, `b`, LF is ever produced. -/
theorem string_escape_lexing_diverges :
    ∀ fuel, lexNext fuel ⟨c6Source, 0⟩ = .diverge := by
  intro fuel
  match fuel with
  | 0 => rfl
  | n + 1 =>
    show (match scanStringLoop (n + 1) ⟨c6Source, 2⟩ false "" with
      | .diverge => PRes.diverge
      | .panic m => .panic m
      | .err m => .panic m
      | .ok (content, st') =>
        match st'.currentChar with
        | none => .panic "index: out of range"
        | some cq =>
          if cq = '"' then .ok (Token.stringLiteral content, st'.advance)
          else .panic "The string literal is not terminated") = .diverge
    rw [scanStringLoop_stuck_c6_start]

theorem scanStringLoop_stuck_c7 :
    ∀ fuel buf, scanStringLoop fuel ⟨c7Source, 2⟩ false buf = .diverge := by
  intro fuel
  induction fuel with
  | zero => intro buf; rfl
  | succ n ih => intro buf; exact ih (buf.push 'u')

/-- C7 is a code bug: lexing the source text `"\uD800"` never reaches the
surrogate check — it never terminates at all, for every fuel bound.  The
double advance on the opening quote skips the backslash, so the escape
machinery (including the `\u` arm's surrogate rejection, lines 308-313 of
the lexer) is unreachable, and the unescaped branch re-reads `u` forever
without consuming it. -/
theorem surrogate_escape_lexing_diverges :
    ∀ fuel, lexNext fuel ⟨c7Source, 0⟩ = .diverge := by
  intro fuel
  match fuel with
  | 0 => rfl
  | n + 1 =>
    show (match scanStringLoop (n + 1) ⟨c7Source, 2⟩ false "" with
      | .diverge => PRes.diverge
      | .panic m => .panic m
      | .err m => .panic m
      | .ok (content, st') =>
        match st'.currentChar with
        | none => .panic "index: out of range"
        | some cq =>
          if cq = '"' then .ok (Token.stringLiteral content, st'.advance)
          else .panic "The string literal is not terminated") = .diverge
    rw [scanStringLoop_stuck_c7]

/-- C8 is a code bug: on a lowercase letter, `scan_lowers` **breaks** as
soon as it sees a lowercase character (inverted condition), so `next`
yields `Identifier{""}` without advancing the cursor — never a keyword
token and never the scanned run.  Moreover `var`, `true` and `false` are
not even in `KEYWORDS` (which holds eleven names), so their match arms are
unreachable under any scan. -/
theorem lowercase_scan_yields_empty_identifier :
    (∀ n, lexNext (n + 1) ⟨['v', 'a', 'r'], 0⟩ =
      .ok (.identifier "", ⟨['v', 'a', 'r'], 0⟩)) ∧
    (∀ n, lexNext (n + 1) ⟨['t', 'r', 'u', 'e'], 0⟩ =
      .ok (.identifier "", ⟨['t', 'r', 'u', 'e'], 0⟩)) ∧
    (∀ n, lexNext (n + 1) ⟨['i', 'f'], 0⟩ =
      .ok (.identifier "", ⟨['i', 'f'], 0⟩)) ∧
    ("var" ∉ KEYWORDS ∧ "true" ∉ KEYWORDS ∧ "false" ∉ KEYWORDS ∧
      "if" ∈ KEYWORDS) :=
  ⟨fun _ => rfl, fun _ => rfl, fun _ => rfl, by decide⟩


namespace MainParser

theorem parseIntLiteral_suffix (ts : List Token) (v : Int)
    (ts' : List Token) (h : parseIntLiteral ts = .ok (v, ts')) :
    ts' <:+ ts := by
  simp only [parseIntLiteral] at h
  split at h
  · split at h
    · simp only [PRes.ok.injEq, Prod.mk.injEq] at h
      obtain ⟨-, rfl⟩ := h
      exact List.tail_suffix ts
    · simp at h
  · simp at h

theorem parser_suffix (fuel : Nat) :
    (∀ ts r ts', parseFirst fuel ts = .ok (r, ts') → ts' <:+ ts) ∧
    (∀ ts r ts', parseMultiplicative fuel ts = .ok (r, ts') → ts' <:+ ts) ∧
    (∀ acc ts r ts', multiplicativeLoop fuel acc ts = .ok (r, ts') →
      ts' <:+ ts) ∧
    (∀ ts r ts', parseAdditive fuel ts = .ok (r, ts') → ts' <:+ ts) ∧
    (∀ acc ts r ts', additiveLoop fuel acc ts = .ok (r, ts') → ts' <:+ ts) ∧
    (∀ ts r ts', parseRelationExpression fuel ts = .ok (r, ts') →
      ts' <:+ ts) ∧
    (∀ acc ts r ts', relationLoop fuel acc ts = .ok (r, ts') → ts' <:+ ts) ∧
    (∀ ts r ts', parseEqualityExpression fuel ts = .ok (r, ts') →
      ts' <:+ ts) ∧
    (∀ acc ts r ts', equalityLoop fuel acc ts = .ok (r, ts') → ts' <:+ ts) := by
  induction fuel with
  | zero =>
    refine ⟨?_, ?_, ?_, ?_, ?_, ?_, ?_, ?_, ?_⟩ <;> intros <;>
      simp_all [parseFirst, parseMultiplicative, multiplicativeLoop,
        parseAdditive, additiveLoop, parseRelationExpression, relationLoop,
        parseEqualityExpression, equalityLoop]
  | succ n ih =>
    obtain ⟨ihF, ihM, ihML, ihA, ihAL, ihR, ihRL, ihE, ihEL⟩ := ih
    refine ⟨?_, ?_, ?_, ?_, ?_, ?_, ?_, ?_, ?_⟩
    · -- parseFirst
      intro ts r ts' h
      simp only [parseFirst] at h
      split at h
      case h_1 inner heq =>
        simp only [PRes.ok.injEq, Prod.mk.injEq] at h
        obtain ⟨-, rfl⟩ := h
        exact List.tail_suffix ts
      case h_2 =>
        split at h
        case h_1 v ts1 heq1 =>
          simp only [PRes.ok.injEq, Prod.mk.injEq] at h
          obtain ⟨-, rfl⟩ := h
          exact parseIntLiteral_suffix _ _ _ heq1
        case h_2 => simp at h
        case h_3 => simp at h
        case h_4 => simp at h
      case h_3 =>
        split at h
        case h_1 inner ts2 heq2 =>
          split at h
          · simp only [PRes.ok.injEq, Prod.mk.injEq] at h
            obtain ⟨-, rfl⟩ := h
            exact ((List.tail_suffix ts2).trans (ihA _ _ _ heq2)).trans
              (List.tail_suffix ts)
          · simp at h
        case h_2 => simp at h
        case h_3 => simp at h
        case h_4 => simp at h
      case h_4 =>
        simp only [PRes.ok.injEq, Prod.mk.injEq] at h
        obtain ⟨-, rfl⟩ := h
        exact List.tail_suffix ts
      case h_5 =>
        simp only [PRes.ok.injEq, Prod.mk.injEq] at h
        obtain ⟨-, rfl⟩ := h
        exact List.tail_suffix ts
      case h_6 => simp at h
    · -- parseMultiplicative
      intro ts r ts' h
      simp only [parseMultiplicative] at h
      split at h
      case h_1 firstTerm ts1 heq =>
        split at h
        · split at h
          case isTrue h_2 rhs ts2 heq2 =>
            split at h
            · exact ((ihML _ _ _ _ h).trans ((ihF _ _ _ heq2).trans
                ((List.tail_suffix _).trans (ihF _ _ _ heq))))
            · simp at h
          case isTrue.h_2 => simp at h
          case isTrue.h_3 => simp at h
          case isTrue.h_4 => simp at h
        · simp only [PRes.ok.injEq, Prod.mk.injEq] at h
          obtain ⟨-, rfl⟩ := h
          exact ihF _ _ _ heq
      case h_2 => simp at h
      case h_3 => simp at h
      case h_4 => simp at h
    · -- multiplicativeLoop
      intro acc ts r ts' h
      simp only [multiplicativeLoop] at h
      split at h
      · split at h
        next hcond newRhs ts2 heq2 =>
          split at h
          · exact (ihML _ _ _ _ h).trans ((ihF _ _ _ heq2).trans
              (List.tail_suffix _))
          · simp at h
        next => simp at h
        next => simp at h
        next => simp at h
      · simp only [PRes.ok.injEq, Prod.mk.injEq] at h
        obtain ⟨-, rfl⟩ := h
        exact List.suffix_refl _
    · -- parseAdditive
      intro ts r ts' h
      simp only [parseAdditive] at h
      split at h
      case h_1 firstTerm ts1 heq =>
        split at h
        · split at h
          case isTrue h_2 rhs ts2 heq2 =>
            split at h
            · exact ((ihAL _ _ _ _ h).trans ((ihM _ _ _ heq2).trans
                ((List.tail_suffix _).trans (ihM _ _ _ heq))))
            · simp at h
          case isTrue.h_2 => simp at h
          case isTrue.h_3 => simp at h
          case isTrue.h_4 => simp at h
        · simp only [PRes.ok.injEq, Prod.mk.injEq] at h
          obtain ⟨-, rfl⟩ := h
          exact ihM _ _ _ heq
      case h_2 => simp at h
      case h_3 => simp at h
      case h_4 => simp at h
    · -- additiveLoop
      intro acc ts r ts' h
      simp only [additiveLoop] at h
      split at h
      · split at h
        next hcond newRhs ts2 heq2 =>
          split at h
          · exact (ihAL _ _ _ _ h).trans ((ihM _ _ _ heq2).trans
              (List.tail_suffix _))
          · simp at h
        next => simp at h
        next => simp at h
        next => simp at h
      · simp only [PRes.ok.injEq, Prod.mk.injEq] at h
        obtain ⟨-, rfl⟩ := h
        exact List.suffix_refl _
    · -- parseRelationExpression
      intro ts r ts' h
      simp only [parseRelationExpression] at h
      split at h
      case h_1 firstTerm ts1 heq =>
        split at h
        · split at h
          case isTrue h_2 rhs ts2 heq2 =>
            split at h
            · exact ((ihRL _ _ _ _ h).trans ((ihA _ _ _ heq2).trans
                ((List.tail_suffix _).trans (ihA _ _ _ heq))))
            · simp at h
          case isTrue.h_2 => simp at h
          case isTrue.h_3 => simp at h
          case isTrue.h_4 => simp at h
        · simp only [PRes.ok.injEq, Prod.mk.injEq] at h
          obtain ⟨-, rfl⟩ := h
          exact ihA _ _ _ heq
      case h_2 => simp at h
      case h_3 => simp at h
      case h_4 => simp at h
    · -- relationLoop
      intro acc ts r ts' h
      simp only [relationLoop] at h
      split at h
      · split at h
        next hcond newRhs ts2 heq2 =>
          split at h
          · exact (ihRL _ _ _ _ h).trans ((ihA _ _ _ heq2).trans
              (List.tail_suffix _))
          · simp at h
        next => simp at h
        next => simp at h
        next => simp at h
      · simp only [PRes.ok.injEq, Prod.mk.injEq] at h
        obtain ⟨-, rfl⟩ := h
        exact List.suffix_refl _
    · -- parseEqualityExpression
      intro ts r ts' h
      simp only [parseEqualityExpression] at h
      split at h
      case h_1 firstTerm ts1 heq =>
        split at h
        · split at h
          case isTrue h_2 rhs ts2 heq2 =>
            split at h
            · exact ((ihEL _ _ _ _ h).trans ((ihR _ _ _ heq2).trans
                ((List.tail_suffix _).trans (ihR _ _ _ heq))))
            · simp at h
          case isTrue.h_2 => simp at h
          case isTrue.h_3 => simp at h
          case isTrue.h_4 => simp at h
        · simp only [PRes.ok.injEq, Prod.mk.injEq] at h
          obtain ⟨-, rfl⟩ := h
          exact ihR _ _ _ heq
      case h_2 => simp at h
      case h_3 => simp at h
      case h_4 => simp at h
    · -- equalityLoop
      intro acc ts r ts' h
      simp only [equalityLoop] at h
      split at h
      · split at h
        next hcond newRhs ts2 heq2 =>
          split at h
          · exact (ihEL _ _ _ _ h).trans ((ihR _ _ _ heq2).trans
              (List.tail_suffix _))
          · simp at h
        next => simp at h
        next => simp at h
        next => simp at h
      · simp only [PRes.ok.injEq, Prod.mk.injEq] at h
        obtain ⟨-, rfl⟩ := h
        exact List.suffix_refl _

end MainParser

namespace MainParser

theorem peekT_eq_newLine {ts : List Token} (h : peekT ts = Token.newLine) :
    ts = Token.newLine :: ts.tail := by
  cases ts with
  | nil => simp [peekT] at h
  | cons a l =>
    simp only [peekT, List.headD_cons] at h
    subst h
    rfl

theorem parseVariableDeclaration_suffix (fuel : Nat) (ts : List Token)
    (st : Statement) (ts' : List Token)
    (h : parseVariableDeclaration fuel ts = .ok (st, ts')) : ts' <:+ ts := by
  simp only [parseVariableDeclaration] at h
  split at h
  · split at h
    next hvar inner heq =>
      split at h
      · split at h
        next hc2 expression ts4 heq4 =>
          simp only [PRes.ok.injEq, Prod.mk.injEq] at h
          obtain ⟨-, rfl⟩ := h
          exact ((parser_suffix fuel).2.2.2.2.2.2.2.1 _ _ _ heq4).trans
            ((List.tail_suffix _).trans ((List.tail_suffix _).trans
              (List.tail_suffix _)))
        next => simp at h
        next => simp at h
        next => simp at h
      · simp at h
    next => simp at h
  · simp at h

theorem parseStatement_newline (fuel : Nat) (ts : List Token)
    (stmt : Statement) (rest : List Token)
    (h : parseStatement fuel ts = .ok (stmt, rest)) :
    Token.newLine :: rest <:+ ts := by
  simp only [parseStatement] at h
  split at h
  case h_1 result ts1 heq =>
    split at h
    · simp only [PRes.ok.injEq, Prod.mk.injEq] at h
      obtain ⟨-, rfl⟩ := h
      rename_i hnl
      have hts1 : ts1 <:+ ts := by
        split at heq
        · exact parseVariableDeclaration_suffix _ _ _ _ heq
        · split at heq
          next e ts1' heqE =>
            simp only [PRes.ok.injEq, Prod.mk.injEq] at heq
            obtain ⟨-, rfl⟩ := heq
            exact (parser_suffix fuel).2.2.2.2.2.2.2.1 _ _ _ heqE
          next => simp at heq
          next => simp at heq
          next => simp at heq
      rw [← peekT_eq_newLine hnl]
      exact hts1
    · simp at h
  case h_2 => simp at h
  case h_3 => simp at h
  case h_4 => simp at h

/-- C10 (amended): every parsed statement must be terminated by exactly
one NewLine token — including the very last statement before EndOfFile,
whose missing trailing newline is a fatal failure (the unconditional
`assert_eq!` in `parse_statement`), contrary to the claimed exception —
and a program with two statements lacking an intervening newline fails,
the failure message carrying the offending token.  Part 1: a successful
statement parse always leaves a `NewLine` immediately before the returned
remainder.  Parts 2-4 evaluate `parse0` (at every sufficient fuel): a lone
unterminated statement panics, a newline-terminated one succeeds, two
statements without a separating newline panic naming `Digits(2)`. -/
theorem statement_newline_termination :
    (∀ (fuel : Nat) (ts : List Token) (stmt : Statement)
      (rest : List Token), parseStatement fuel ts = .ok (stmt, rest) →
      Token.newLine :: rest <:+ ts) ∧
    (∀ n : Nat, parse0 (n + 1 + 1 + 1 + 1 + 1 + 1 + 1 + 1)
      [Token.digits "1"] =
      .panic ("statement must be terminated by a newline: " ++
        tokenDebug Token.endOfFile)) ∧
    (∀ n : Nat, parse0 (n + 1 + 1 + 1 + 1 + 1 + 1 + 1 + 1)
      [Token.digits "1", Token.newLine] =
      .ok (⟨[.print (.propagated (.propagated (.propagated
        (.propagated (.intLiteral 1)))))]⟩, [])) ∧
    (∀ n : Nat, parse0 (n + 1 + 1 + 1 + 1 + 1 + 1 + 1 + 1)
      [Token.digits "1", Token.digits "2"] =
      .panic ("statement must be terminated by a newline: " ++
        tokenDebug (Token.digits "2"))) :=
  ⟨parseStatement_newline, fun _ => rfl, fun _ => rfl, fun _ => rfl⟩

/-- Counterexample to C10 as stated: the claim's exception says the very
last statement before EndOfFile may omit the trailing newline, but
`parse0` on the single unterminated statement `1` fails (assertion panic)
instead of succeeding. -/
theorem statement_newline_termination_counterexample :
    parse0 30 [Token.digits "1"] =
      .panic ("statement must be terminated by a newline: " ++
        tokenDebug Token.endOfFile) := by rfl

/-- Witness for C10's amended part 1 at a concrete input. -/
theorem statement_newline_termination_witness :
    Token.newLine :: ([] : List Token) <:+
      [Token.digits "1", Token.newLine] :=
  statement_newline_termination.1 10 [Token.digits "1", Token.newLine]
    (.print (.propagated (.propagated (.propagated
      (.propagated (.intLiteral 1)))))) [] (by rfl)

/-- C1: the parser builds left-associative, precedence-correct ASTs over
integer digit literals and `+ - * /`: for arbitrary in-range digit tokens,
`d0 + d1 * d2` parses with the multiplication nested under the addition,
and `d0 - d1 - d2` parses left-folded `(d0 - d1) - d2`; consequently
"2 + 3 * 4" evaluates to 14 (not 20) and "10 - 2 - 3" evaluates to 5
(not 11) under standard integer evaluation of the parsed AST. -/
theorem additive_multiplicative_precedence_left_assoc :
    (∀ (n : Nat) (s0 s1 s2 : String) (v0 v1 v2 : Int),
      parseI32 s0 = .ok v0 → parseI32 s1 = .ok v1 → parseI32 s2 = .ok v2 →
      parseAdditive (n + 1 + 1 + 1 + 1)
        [Token.digits s0, Token.symPlus, Token.digits s1,
         Token.symAsterisk, Token.digits s2] =
      .ok (.binary .plus
            (.propagated (.propagated (.intLiteral v0)))
            (.propagated (.binary .multiple
              (.propagated (.intLiteral v1))
              (.propagated (.intLiteral v2)))), [])) ∧
    (∀ (n : Nat) (s0 s1 s2 : String) (v0 v1 v2 : Int),
      parseI32 s0 = .ok v0 → parseI32 s1 = .ok v1 → parseI32 s2 = .ok v2 →
      parseAdditive (n + 1 + 1 + 1 + 1)
        [Token.digits s0, Token.symMinus, Token.digits s1,
         Token.symMinus, Token.digits s2] =
      .ok (.binary .minus
            (.binary .minus
              (.propagated (.propagated (.intLiteral v0)))
              (.propagated (.propagated (.intLiteral v1))))
            (.propagated (.propagated (.intLiteral v2))), [])) ∧
    ((match parseAdditive 30 [Token.digits "2", Token.symPlus,
        Token.digits "3", Token.symAsterisk, Token.digits "4"] with
      | .ok (a, _) => evalAdditive a
      | _ => none) = some 14) ∧
    ((match parseAdditive 30 [Token.digits "2", Token.symPlus,
        Token.digits "3", Token.symAsterisk, Token.digits "4"] with
      | .ok (a, _) => evalAdditive a
      | _ => none) ≠ some 20) ∧
    ((match parseAdditive 30 [Token.digits "10", Token.symMinus,
        Token.digits "2", Token.symMinus, Token.digits "3"] with
      | .ok (a, _) => evalAdditive a
      | _ => none) = some 5) ∧
    ((match parseAdditive 30 [Token.digits "10", Token.symMinus,
        Token.digits "2", Token.symMinus, Token.digits "3"] with
      | .ok (a, _) => evalAdditive a
      | _ => none) ≠ some 11) := by
  refine ⟨?_, ?_, by rfl, by decide, by rfl, by decide⟩
  · intro n s0 s1 s2 v0 v1 v2 h0 h1 h2
    simp [parseAdditive, parseMultiplicative, parseFirst, parseIntLiteral,
      multiplicativeLoop, additiveLoop, peekT, h0, h1, h2,
      asteriskOrSlash, plusOrMinus, getOpMultiplicative, getOpAdditive]
  · intro n s0 s1 s2 v0 v1 v2 h0 h1 h2
    simp [parseAdditive, parseMultiplicative, parseFirst, parseIntLiteral,
      multiplicativeLoop, additiveLoop, peekT, h0, h1, h2,
      asteriskOrSlash, plusOrMinus, getOpMultiplicative, getOpAdditive]

/-- Witness for C1's general precedence part at "2 + 3 * 4". -/
theorem additive_multiplicative_precedence_left_assoc_witness :
    parseAdditive (0 + 1 + 1 + 1 + 1)
      [Token.digits "2", Token.symPlus, Token.digits "3",
       Token.symAsterisk, Token.digits "4"] =
    .ok (.binary .plus
          (.propagated (.propagated (.intLiteral 2)))
          (.propagated (.binary .multiple
            (.propagated (.intLiteral 3))
            (.propagated (.intLiteral 4)))), []) :=
  additive_multiplicative_precedence_left_assoc.1 0 "2" "3" "4" 2 3 4 (by rfl) (by rfl) (by rfl)

end MainParser

namespace Toolchain

theorem statementRead_eof (fuel : Nat) (ts : List Token)
    (h : peekT ts = Token.endOfFile) :
    statementRead (fuel + 1) ts = .ok (.noMoreStatements, ts) := by
  simp [statementRead, h]

theorem rootAstLoop_eof_diverges :
    ∀ (fuel : Nat) (acc : List Statement) (ts : List Token),
      peekT ts = Token.endOfFile → rootAstLoop fuel acc ts = .diverge := by
  intro fuel
  induction fuel with
  | zero => intro acc ts _; rfl
  | succ n ih =>
    intro acc ts h
    cases n with
    | zero => simp [rootAstLoop, statementRead]
    | succ m =>
      simp only [rootAstLoop, statementRead_eof m ts h]
      exact ih _ _ h

/-- C4: `RootAst::read` returns only when some statement parse returns
`Err`.  Part 1: once the stream is at `EndOfFile`, `Statement::read`
returns `Ok(NoMoreStatements)` with the stream unchanged, at every fuel.
Part 2: from any `EndOfFile` state the `while let Ok` loop runs out of
*any* fuel — it never exits.  Part 3: hence parsing a `RootAst` of the
empty input diverges at every fuel.  Part 4: whenever the loop does
return an AST, some statement parse returned `Err`. -/
theorem root_ast_read_never_terminates :
    (∀ (fuel : Nat) (ts : List Token), peekT ts = Token.endOfFile →
      statementRead (fuel + 1) ts = .ok (.noMoreStatements, ts)) ∧
    (∀ (fuel : Nat) (acc : List Statement) (ts : List Token),
      peekT ts = Token.endOfFile → rootAstLoop fuel acc ts = .diverge) ∧
    (∀ fuel : Nat, rootAstRead fuel [] = .diverge) ∧
    (∀ (fuel : Nat) (acc : List Statement) (ts : List Token) (r : RootAst),
      rootAstLoop fuel acc ts = .ok r →
      ∃ (fuel' : Nat) (ts' : List Token) (m : String),
        statementRead fuel' ts' = .err m) := by
  refine ⟨statementRead_eof, rootAstLoop_eof_diverges,
    fun fuel => rootAstLoop_eof_diverges fuel [] [] rfl, ?_⟩
  intro fuel
  induction fuel with
  | zero => intro acc ts r h; simp [rootAstLoop] at h
  | succ n ih =>
    intro acc ts r h
    simp only [rootAstLoop] at h
    split at h
    case h_1 stmt ts1 heq => exact ih _ _ _ h
    case h_2 m heq => exact ⟨n, ts, m, heq⟩
    case h_3 => simp at h
    case h_4 => simp at h

/-- Witness for C4 at concrete inputs: `Statement::read` at `EndOfFile`
yields the sentinel, and a loop run that exits did hit an `Err`. -/
theorem root_ast_read_never_terminates_witness :
    (statementRead 1 [] = .ok (.noMoreStatements, [])) ∧
    (∃ (fuel' : Nat) (ts' : List Token) (m : String),
      statementRead fuel' ts' = .err m) :=
  ⟨root_ast_read_never_terminates.1 0 [] (by rfl),
   root_ast_read_never_terminates.2.2.2 2 [] [Token.symPlus] ⟨[]⟩ (by rfl)⟩

end Toolchain

namespace ExprTree

/-- C2 is a code bug: `Cast::read` never terminates on any input at any
fuel, because its first action is to call itself on an unchanged stream
(`parser.parse::<Cast>()` instead of the `First` level) — contradicting
the enum's own doc comment ("left-associative … `1 as u16 as u32` is
equivalent with `(1 as u16) as u32`").  No input — in particular not
`1 as i32 as i64` — ever parses to nested `Cast::Do` nodes; and even
under the evident one-line fix the body's `if` would attach at most one
`as` suffix. -/
theorem cast_read_diverges :
    ∀ (fuel : Nat) (ts : List Token), castRead fuel ts = .diverge := by
  intro fuel
  induction fuel with
  | zero => intro ts; rfl
  | succ n ih => intro ts; simp [castRead, ih]

end ExprTree
